import Mathlib

/-!
Verification of the tool registry and dispatch core of the coco-research
tool service (src/coco-research/tool-service).

The embedding translates, statement by statement:
  * `BaseTool.validate_parameters`  (tools/base_tool.py, lines 25-33)
  * the registry dict `tools`       (main.py, lines 48-54)
  * `execute_tool`                  (main.py, lines 101-130)
  * `execute_batch_tools`           (main.py, lines 132-168)
  * `WebSearchTool`                 (tools/web_search.py)

Python dictionaries become association lists in insertion order (Python
dicts preserve insertion order; an update of an existing key keeps the
position of the key and replaces the value).  Python exceptions become
`Except String`, carrying `str(e)`.  Wall-clock timestamps become explicit
rational parameters: the dispatcher records a start time `t0` and an end
time `t1` and stores `t1 - t0` as `execution_time`, exactly as
`(datetime.now() - start_time).total_seconds()` does.
-/

set_option autoImplicit false

namespace ToolService

/-- JSON-like runtime values passed as tool parameters and results
(Python `Any` in the source). `null` is Python `None`. -/
inductive Value where
  | null : Value
  | bool : Bool → Value
  | int : Int → Value
  | str : String → Value
  | arr : List Value → Value
  | obj : List (String × Value) → Value

/-- Parameters mapping supplied by the caller: a Python dict
`Dict[str, Any]` in insertion order. -/
abbrev Params := List (String × Value)

/-- Association-list lookup with Python dict semantics (keys are unique in
a Python dict; the first match is the binding). -/
def alookup {α : Type} : List (String × α) → String → Option α
  | [], _ => none
  | (k, v) :: rest, key => if k = key then some v else alookup rest key

/-- Python `parameters.get(key)`: the value when present, `None` otherwise. -/
def pyGet (params : Params) (key : String) : Value :=
  (alookup params key).getD Value.null

/-- Python `parameters.get(key, dflt)`. -/
def pyGetD (params : Params) (key : String) (dflt : Value) : Value :=
  (alookup params key).getD dflt

/-- Declared description of one tool parameter (the per-parameter dicts in
each tool constructor, e.g. tools/web_search.py lines 17-34): a type
string, a human-readable description, the `required` flag (absent means
`False`, matching the v.get lookup of base_tool.py line 27), an
optional default and an optional enum list (the required flag is read in
base_tool.py line 27 with default False).  The enum and type fields are
descriptive metadata only; nothing in the dispatch core reads them. -/
structure ParamSpec where
  ptype : String
  descr : String := ""
  required : Bool := false
  dflt : Option Value := none
  enum : Option (List Value) := none

/-- Ordered schema of a tool: `self.parameters`, a Python dict from
parameter name to its spec dict, in declaration order. -/
abbrev ToolSchema := List (String × ParamSpec)

/-- Tool shape shared by every concrete tool (tools/base_tool.py):
a name, a description, the parameter schema, and an `execute` operation
that either returns a value or fails with the text of the raised
exception. -/
structure Tool where
  name : String
  description : String
  parameters : ToolSchema
  execute : Params → Except String Value

/-- Registry mapping tool name to tool instance: the module-level dict
`tools` of main.py lines 48-54. -/
abbrev Registry := List (String × Tool)

/-- Python dict insertion `d[name] = tool` on the registry: replaces the
value in place when the key exists (keeping its position), appends a new
binding otherwise, and never fails.  This is the only registration
operation the source has; the registry is populated by the dict literal
at main.py lines 48-54, i.e. by successive insertions. -/
def dictInsert (r : Registry) (key : String) (tool : Tool) : Registry :=
  match r with
  | [] => [(key, tool)]
  | (k, v) :: rest =>
      if k = key then (k, tool) :: rest else (k, v) :: dictInsert rest key tool

/-- Registry lookup, Python `tools[tool_name]` guarded by
`tool_name not in tools`. -/
def regLookup (r : Registry) (key : String) : Option Tool :=
  alookup r key

/-- BaseTool.validate_parameters, line 27: the comprehension collecting
the keys of self.parameters whose spec has the required flag set. -/
def requiredParams (schema : ToolSchema) : List String :=
  (schema.filter (fun kv => kv.2.required)).map (fun kv => kv.1)

/-- BaseTool.validate_parameters, lines 29-31: loop over the required
names in schema order and raise
`ValueError(f"Missing required parameter: {param}")` at the first name
absent from `parameters`. -/
def checkRequired (params : Params) : List String → Except String Bool
  | [] => Except.ok true
  | p :: rest =>
      if (alookup params p).isSome then checkRequired params rest
      else Except.error ("Missing required parameter: " ++ p)

/-- BaseTool.validate_parameters (tools/base_tool.py lines 25-33): collect
the required parameter names, raise on the first missing one, otherwise
return `True`. -/
def validate_parameters (schema : ToolSchema) (params : Params) : Except String Bool :=
  checkRequired params (requiredParams schema)

/-- Response model of the single-tool endpoint (main.py lines 41-45):
`success`, `data` (`Value.null` on the failure path, where the source
passes `data=None`), `message`, and `execution_time` in seconds. -/
structure ToolResponse where
  success : Bool
  data : Value
  message : String
  execution_time : ℚ

/-- execute_tool (main.py lines 101-130), the single-item dispatcher.
`t0` is the start timestamp of line 108 and `t1` the end timestamp read
at line 113 or 122; the stored elapsed time is their difference.  An
unknown name raises `HTTPException(status_code=404)`, modelled as
`Except.error 404`.  A known tool is executed directly on the caller
parameters; a raised exception `e` is caught and converted into a
response with `success=False`, `data=None` and the message
`f"Tool execution failed: {str(e)}"`; otherwise the response is
`success=True` with the returned value and the fixed message
`"Tool executed successfully"`.  Note that `validate_parameters` is never
called on this path. -/
def execute_tool (r : Registry) (tool_name : String) (params : Params)
    (t0 t1 : ℚ) : Except Nat ToolResponse :=
  match regLookup r tool_name with
  | none => Except.error 404
  | some tool =>
      match tool.execute params with
      | Except.ok result =>
          Except.ok { success := true, data := result,
                      message := "Tool executed successfully",
                      execution_time := t1 - t0 }
      | Except.error e =>
          Except.ok { success := false, data := Value.null,
                      message := "Tool execution failed: " ++ e,
                      execution_time := t1 - t0 }

/-- Request body item of the batch endpoint (main.py lines 37-39). -/
structure ToolRequest where
  tool_name : String
  parameters : Params

/-- One item of the batch response (main.py lines 139-166): a plain dict,
so every field other than `tool_name` and `success` may be absent
(`Option`).  The not-found branch sets only `error`; the success branch
sets `data` and `execution_time`; the failure branch sets `error` and
`execution_time`. -/
structure BatchItem where
  tool_name : String
  success : Bool
  data : Option Value := none
  error : Option String := none
  execution_time : Option ℚ := none

/-- Body of one iteration of the loop in execute_batch_tools (main.py
lines 137-166), with `t0`, `t1` the per-iteration start and end
timestamps (lines 147, 151, 160). -/
def batchItem (r : Registry) (req : ToolRequest) (t0 t1 : ℚ) : BatchItem :=
  match regLookup r req.tool_name with
  | none =>
      { tool_name := req.tool_name, success := false,
        error := some "Tool not found" }
  | some tool =>
      match tool.execute req.parameters with
      | Except.ok result =>
          { tool_name := req.tool_name, success := true,
            data := some result, execution_time := some (t1 - t0) }
      | Except.error e =>
          { tool_name := req.tool_name, success := false,
            error := some e, execution_time := some (t1 - t0) }

/-- Loop of execute_batch_tools over the request list, appending exactly
one item per request.  `clock i` supplies the start and end timestamps of
iteration `i`. -/
def batchLoop (r : Registry) (clock : Nat → ℚ × ℚ) : List ToolRequest → Nat → List BatchItem
  | [], _ => []
  | req :: rest, i =>
      batchItem r req (clock i).1 (clock i).2 :: batchLoop r clock rest (i + 1)

/-- execute_batch_tools (main.py lines 132-168): run every request through
the per-item logic in order and collect the results list. -/
def execute_batch_tools (r : Registry) (clock : Nat → ℚ × ℚ)
    (requests : List ToolRequest) : List BatchItem :=
  batchLoop r clock requests 0

/-! WebSearchTool (tools/web_search.py), the one concrete tool whose
internal execute logic the claims evaluate.  Its execute builds mock
results from f-strings interpolating the query value, so the embedding
needs the Python str rendering of a value. -/

/-- Single-quote character of a Python repr. -/
def sq : String := String.mk [Char.ofNat 39]

/-- Python repr of a value (used by str on containers): None, True and
False by name, integers in decimal, strings single-quoted, lists in
square brackets and dicts in braces (written with escape codes). -/
def pyRepr : Value → String
  | Value.null => "None"
  | Value.bool b => if b then "True" else "False"
  | Value.int n => toString n
  | Value.str s => sq ++ s ++ sq
  | Value.arr xs =>
      "[" ++ String.intercalate ", " (xs.attach.map (fun x => pyRepr x.1)) ++ "]"
  | Value.obj kvs =>
      "\x7b" ++
        String.intercalate ", "
          (kvs.attach.map (fun kv => sq ++ kv.1.1 ++ sq ++ ": " ++ pyRepr kv.1.2)) ++
      "\x7d"
decreasing_by
  · have h := List.sizeOf_lt_of_mem x.2
    simp only [Value.arr.sizeOf_spec]
    omega
  · have h := List.sizeOf_lt_of_mem kv.2
    have h2 : sizeOf kv.1.2 < sizeOf kv.1 := by
      obtain ⟨a, b⟩ := kv.1
      simp only [Prod.mk.sizeOf_spec]
      omega
    simp only [Value.obj.sizeOf_spec]
    omega

/-- Python str of a value, as an f-string interpolation renders it:
strings stay as they are, None, booleans and integers print by name or in
decimal, and containers fall back to their repr. -/
def pyStr : Value → String
  | Value.str s => s
  | Value.null => "None"
  | Value.bool b => if b then "True" else "False"
  | Value.int n => toString n
  | v => pyRepr v

/-- Mock result list built in _perform_search (tools/web_search.py lines
65-78); the f-strings interpolate the query value. -/
def mockResults (query : Value) : List Value :=
  [ Value.obj [
      ("title", Value.str ("搜索结果 1 - " ++ pyStr query)),
      ("url", Value.str "https://example.com/result1"),
      ("snippet", Value.str ("这是关于 " ++ pyStr query ++ " 的第一个搜索结果...")),
      ("source", Value.str "example.com")],
    Value.obj [
      ("title", Value.str ("搜索结果 2 - " ++ pyStr query)),
      ("url", Value.str "https://example.com/result2"),
      ("snippet", Value.str ("这是关于 " ++ pyStr query ++ " 的第二个搜索结果...")),
      ("source", Value.str "example.com")] ]

/-- Python list slice `l[:n]` (tools/web_search.py line 80).  An int index
is clamped (a negative index counts from the end), a bool counts as the
int 0 or 1, None keeps the whole list, and any other index raises
TypeError with the CPython message. -/
def pySliceTo (l : List Value) : Value → Except String (List Value)
  | Value.int n =>
      Except.ok (if n < 0 then l.take (l.length - n.natAbs) else l.take n.toNat)
  | Value.bool b => Except.ok (l.take (if b then 1 else 0))
  | Value.null => Except.ok l
  | _ => Except.error "slice indices must be integers or None or have an __index__ method"

/-- WebSearchTool.execute (tools/web_search.py lines 37-58): read query
(default None), num_results (default 10) and search_type (default web)
from the parameters, build the mock result list for the query, slice it
to num_results (_perform_search ignores search_type), and return the
result object; the timestamp field is the constant string of line 54. -/
def webSearchExecute (params : Params) : Except String Value :=
  let query := pyGet params "query"
  let num_results := pyGetD params "num_results" (Value.int 10)
  let search_type := pyGetD params "search_type" (Value.str "web")
  match pySliceTo (mockResults query) num_results with
  | Except.error e => Except.error e
  | Except.ok results =>
      Except.ok (Value.obj [
        ("query", query),
        ("search_type", search_type),
        ("num_results", Value.int (results.length : Int)),
        ("results", Value.arr results),
        ("timestamp", Value.str "2024-01-01T00:00:00Z")])

/-- WebSearchTool as constructed in tools/web_search.py lines 12-35:
name, description and the three-parameter schema, of which only `query`
is required. -/
def webSearchTool : Tool :=
  { name := "web_search",
    description := "执行网络搜索，获取相关信息",
    parameters := [
      ("query", { ptype := "string", descr := "搜索查询", required := true }),
      ("num_results", { ptype := "integer", descr := "返回结果数量",
                        required := false, dflt := some (Value.int 10) }),
      ("search_type", { ptype := "string", descr := "搜索类型",
                        required := false, dflt := some (Value.str "web"),
                        enum := some [Value.str "web", Value.str "news",
                                      Value.str "academic"] })],
    execute := webSearchExecute }

/-- Sub-registry of the source registry (main.py lines 48-54) containing
its web_search binding of line 49.  The other four bindings instantiate
tools whose internal execute logic both the spec (section 1, section 4.2)
and the claims leave out of scope; every concrete evaluation below only
ever looks up this binding, and every general theorem is quantified over
an arbitrary registry. -/
def wsRegistry : Registry := [("web_search", webSearchTool)]

/-- BaseTool.execute_with_validation (tools/base_tool.py lines 35-42):
run validate_parameters, then execute; any failure is logged and
re-raised to the caller.  No call site in the service uses it:
execute_tool of main.py calls execute directly. -/
def execute_with_validation (tool : Tool) (params : Params) : Except String Value :=
  match validate_parameters tool.parameters params with
  | Except.error e => Except.error e
  | Except.ok _ => tool.execute params

/-- Specification-side reading of section 4.1: the first missing required
key in schema-declared order.  This definition follows the spec wording
and exists to be compared with validate_parameters, which is translated
from the source. -/
def specFirstMissing (schema : ToolSchema) (params : Params) : Option String :=
  (requiredParams schema).find? (fun p => (alookup params p).isNone)

/-- Specification-side reading of the validation contract of section 4.1:
succeed exactly when no required key is missing, and otherwise report the
first missing required key; nothing else (types, enums, defaults) is
examined. -/
def specValidate (schema : ToolSchema) (params : Params) : Except String Bool :=
  match specFirstMissing schema params with
  | some p => Except.error ("Missing required parameter: " ++ p)
  | none => Except.ok true

/-! State-passing translations for the frame property.  The source never
assigns into the caller parameters dict, the registry dict or a tool
schema on the dispatch path (every access is a read: `parameters.get`,
`tools[tool_name]`, `self.parameters.items()`), so the statement-level
translation threads each of these objects through unchanged and returns
it next to the result. -/

/-- Loop of validate_parameters with the parameters dict threaded
through: each iteration only reads `param not in parameters`. -/
def checkRequired_st (params : Params) : List String → Params × Except String Bool
  | [] => (params, Except.ok true)
  | p :: rest =>
      if (alookup params p).isSome then checkRequired_st params rest
      else (params, Except.error ("Missing required parameter: " ++ p))

/-- BaseTool.validate_parameters with the schema and the parameters dict
threaded through (base_tool.py lines 25-33 read both and write
neither). -/
def validate_parameters_st (schema : ToolSchema) (params : Params) :
    ToolSchema × Params × Except String Bool :=
  let r := checkRequired_st params (requiredParams schema)
  (schema, r.1, r.2)

/-- execute_tool (main.py lines 101-130) with the registry and the caller
parameters threaded through: line 104 reads the registry, line 107 reads
one binding, and line 112 passes the parameters dict to execute; no
statement of the handler writes into either object. -/
def execute_tool_st (r : Registry) (tool_name : String) (params : Params)
    (t0 t1 : ℚ) : Registry × Params × Except Nat ToolResponse :=
  match regLookup r tool_name with
  | none => (r, params, Except.error 404)
  | some tool =>
      match tool.execute params with
      | Except.ok result =>
          (r, params,
           Except.ok { success := true, data := result,
                       message := "Tool executed successfully",
                       execution_time := t1 - t0 })
      | Except.error e =>
          (r, params,
           Except.ok { success := false, data := Value.null,
                       message := "Tool execution failed: " ++ e,
                       execution_time := t1 - t0 })

/-- WebSearchTool.execute (tools/web_search.py lines 37-58) with the
caller parameters threaded through: lines 39-41 read three keys with
defaults and nothing in the function writes into the dict. -/
def webSearchExecute_st (params : Params) : Params × Except String Value :=
  let query := pyGet params "query"
  let num_results := pyGetD params "num_results" (Value.int 10)
  let search_type := pyGetD params "search_type" (Value.str "web")
  match pySliceTo (mockResults query) num_results with
  | Except.error e => (params, Except.error e)
  | Except.ok results =>
      (params,
       Except.ok (Value.obj [
         ("query", query),
         ("search_type", search_type),
         ("num_results", Value.int (results.length : Int)),
         ("results", Value.arr results),
         ("timestamp", Value.str "2024-01-01T00:00:00Z")]))

/-- Test fixture for the duplicate-registration scenario of section 4.3:
a second tool value registered under the already-taken web_search name. -/
def replacementTool : Tool :=
  { name := "web_search", description := "replacement",
    parameters := [], execute := webSearchExecute }

/-! Helper lemmas shared by several claim theorems. -/

/-- Membership in the required-name list unfolds to membership of a
required spec in the schema. -/
theorem mem_requiredParams (schema : ToolSchema) (p : String) :
    p ∈ requiredParams schema ↔
      ∃ spec : ParamSpec, (p, spec) ∈ schema ∧ spec.required = true := by
  constructor
  · intro h
    obtain ⟨⟨k, spec⟩, hmem, rfl⟩ := List.mem_map.mp h
    exact ⟨spec, (List.mem_filter.mp hmem).1, (List.mem_filter.mp hmem).2⟩
  · rintro ⟨spec, hmem, hreq⟩
    exact List.mem_map.mpr ⟨(p, spec), List.mem_filter.mpr ⟨hmem, hreq⟩, rfl⟩

/-- Loop of validate_parameters, described through the first missing name
of the list. -/
theorem checkRequired_eq_find (params : Params) (l : List String) :
    checkRequired params l =
      (match l.find? (fun p => (alookup params p).isNone) with
       | some p => Except.error ("Missing required parameter: " ++ p)
       | none => Except.ok true) := by
  induction l with
  | nil => rfl
  | cons p rest ih =>
      cases halo : alookup params p with
      | none => simp [checkRequired, halo, List.find?]
      | some v => simp [checkRequired, halo, List.find?, ih]

/-- Loop of validate_parameters succeeds exactly when every name of the
list is present. -/
theorem checkRequired_ok_iff (params : Params) (l : List String) :
    checkRequired params l = Except.ok true ↔
      ∀ p ∈ l, (alookup params p).isSome := by
  induction l with
  | nil => simp [checkRequired]
  | cons p rest ih =>
      cases halo : alookup params p with
      | none => simp [checkRequired, halo]
      | some v => simp [checkRequired, halo, ih]

/-- Every branch of one batch iteration labels its result with the
tool_name of the request. -/
theorem batchItem_tool_name (r : Registry) (req : ToolRequest) (t0 t1 : ℚ) :
    (batchItem r req t0 t1).tool_name = req.tool_name := by
  cases h : regLookup r req.tool_name with
  | none => simp [batchItem, h]
  | some tool =>
      cases h2 : tool.execute req.parameters with
      | ok v => simp [batchItem, h, h2]
      | error e => simp [batchItem, h, h2]

/-- Loop of execute_batch_tools: one result per request, in order, each
labelled with the tool_name of its request, for any start index. -/
theorem batchLoop_names (r : Registry) (clock : Nat → ℚ × ℚ)
    (reqs : List ToolRequest) :
    ∀ i : Nat,
      (batchLoop r clock reqs i).map BatchItem.tool_name =
        reqs.map ToolRequest.tool_name := by
  induction reqs with
  | nil => intro i; rfl
  | cons req rest ih =>
      intro i
      simp [batchLoop, batchItem_tool_name, ih (i + 1)]

/-- Loop of validate_parameters with threaded state equals the plain loop
next to the untouched parameters dict. -/
theorem checkRequired_st_eq (params : Params) (l : List String) :
    checkRequired_st params l = (params, checkRequired params l) := by
  induction l with
  | nil => rfl
  | cons p rest ih =>
      cases halo : alookup params p with
      | none => simp [checkRequired_st, checkRequired, halo]
      | some v => simp [checkRequired_st, checkRequired, halo, ih]

/-! Claim theorems. -/

/-- C1: the claim states that dispatch runs schema validation before
invoking execute and rejects a missing required parameter without
invoking execute.  The source contradicts it: execute_tool (main.py
lines 101-130) never calls validate_parameters, so dispatching
web_search with an empty parameters mapping invokes execute and returns
a success envelope, even though validation of that mapping reports the
missing required query parameter and the unused wrapper
execute_with_validation would have refused to execute. -/
theorem execute_tool_skips_validation :
    (execute_tool wsRegistry "web_search" [] 0 0).map
        (fun resp => (resp.success, resp.message)) =
      Except.ok (true, "Tool executed successfully") ∧
    validate_parameters webSearchTool.parameters [] =
      Except.error "Missing required parameter: query" ∧
    execute_with_validation webSearchTool [] =
      Except.error "Missing required parameter: query" :=
  ⟨rfl, rfl, rfl⟩

/-- C2: dispatch of a registered tool always returns an envelope (never
an HTTP-level fault), and whenever execute fails the envelope carries
success = false. -/
theorem dispatch_total_envelope (r : Registry) (tool_name : String)
    (params : Params) (t0 t1 : ℚ) (tool : Tool)
    (hlook : regLookup r tool_name = some tool) :
    ∃ resp : ToolResponse,
      execute_tool r tool_name params t0 t1 = Except.ok resp ∧
      (∀ e : String, tool.execute params = Except.error e →
        resp.success = false) := by
  cases hex : tool.execute params with
  | ok v =>
      exact ⟨{ success := true, data := v,
               message := "Tool executed successfully",
               execution_time := t1 - t0 },
             by simp only [execute_tool, hlook, hex],
             fun e he => by simp [hex] at he⟩
  | error e =>
      exact ⟨{ success := false, data := Value.null,
               message := "Tool execution failed: " ++ e,
               execution_time := t1 - t0 },
             by simp only [execute_tool, hlook, hex],
             fun e2 he => rfl⟩

/-- C2 witness: the registered web_search tool with an empty parameters
mapping. -/
theorem dispatch_total_envelope_witness :
    ∃ resp : ToolResponse,
      execute_tool wsRegistry "web_search" [] 0 0 = Except.ok resp ∧
      (∀ e : String, webSearchTool.execute [] = Except.error e →
        resp.success = false) :=
  dispatch_total_envelope wsRegistry "web_search" [] 0 0 webSearchTool rfl

/-- C3 counterexample: the claim states that the failure message of an
envelope is the raw error string verbatim.  Dispatching web_search with
a string num_results makes execute fail with the slice TypeError text,
and the envelope message is that text with the added text
"Tool execution failed: " in front, so it differs from the raw string. -/
theorem dispatch_message_not_verbatim :
    webSearchTool.execute
        [("query", Value.str "ai"), ("num_results", Value.str "5")] =
      Except.error
        "slice indices must be integers or None or have an __index__ method" ∧
    (execute_tool wsRegistry "web_search"
        [("query", Value.str "ai"), ("num_results", Value.str "5")] 0 0).map
        ToolResponse.message =
      Except.ok
        "Tool execution failed: slice indices must be integers or None or have an __index__ method" ∧
    ("Tool execution failed: slice indices must be integers or None or have an __index__ method"
        : String) ≠
      "slice indices must be integers or None or have an __index__ method" :=
  ⟨rfl, rfl, by decide⟩

/-- C3 amended: whenever execute of a registered tool fails with message
e, dispatch returns an envelope with success = false, data null, and the
message "Tool execution failed: " followed by e (main.py line 128). -/
theorem dispatch_failure_message_wrapped (r : Registry) (tool_name : String)
    (params : Params) (t0 t1 : ℚ) (tool : Tool) (e : String)
    (hlook : regLookup r tool_name = some tool)
    (hex : tool.execute params = Except.error e) :
    execute_tool r tool_name params t0 t1 =
      Except.ok { success := false, data := Value.null,
                  message := "Tool execution failed: " ++ e,
                  execution_time := t1 - t0 } := by
  simp only [execute_tool, hlook, hex]

/-- C3 amended witness: the failing web_search dispatch of the
counterexample, at timestamps 0 and 0. -/
theorem dispatch_failure_message_wrapped_witness :
    execute_tool wsRegistry "web_search"
        [("query", Value.str "ai"), ("num_results", Value.str "5")] 0 0 =
      Except.ok { success := false, data := Value.null,
                  message := "Tool execution failed: slice indices must be integers or None or have an __index__ method",
                  execution_time := 0 - 0 } :=
  dispatch_failure_message_wrapped wsRegistry "web_search"
    [("query", Value.str "ai"), ("num_results", Value.str "5")] 0 0
    webSearchTool
    "slice indices must be integers or None or have an __index__ method"
    rfl rfl

/-- C4: a batch item whose tool_name is unregistered is exactly the
not-found dict (error field, no data, no execution_time), while an item
whose tool resolved but whose execute failed carries both the raw error
string and an execution_time. -/
theorem batch_item_shapes (r : Registry) (req : ToolRequest) (t0 t1 : ℚ) :
    (regLookup r req.tool_name = none →
      batchItem r req t0 t1 =
        { tool_name := req.tool_name, success := false, data := none,
          error := some "Tool not found", execution_time := none }) ∧
    (∀ (tool : Tool) (e : String),
      regLookup r req.tool_name = some tool →
      tool.execute req.parameters = Except.error e →
      batchItem r req t0 t1 =
        { tool_name := req.tool_name, success := false, data := none,
          error := some e, execution_time := some (t1 - t0) }) := by
  constructor
  · intro h
    simp only [batchItem, h]
  · intro tool e hlook hex
    simp only [batchItem, hlook, hex]

/-- C4 witness: an unknown name gives the not-found item without timing;
a failing web_search dispatch gives the error item with timing. -/
theorem batch_item_shapes_witness :
    batchItem wsRegistry { tool_name := "no_such_tool", parameters := [] } 0 0 =
      { tool_name := "no_such_tool", success := false, data := none,
        error := some "Tool not found", execution_time := none } ∧
    batchItem wsRegistry
        { tool_name := "web_search",
          parameters := [("query", Value.str "ai"),
                         ("num_results", Value.str "5")] } 0 0 =
      { tool_name := "web_search", success := false, data := none,
        error := some "slice indices must be integers or None or have an __index__ method",
        execution_time := some (0 - 0) } :=
  ⟨(batch_item_shapes wsRegistry
      { tool_name := "no_such_tool", parameters := [] } 0 0).1 rfl,
   (batch_item_shapes wsRegistry
      { tool_name := "web_search",
        parameters := [("query", Value.str "ai"),
                       ("num_results", Value.str "5")] } 0 0).2
     webSearchTool
     "slice indices must be integers or None or have an __index__ method"
     rfl rfl⟩

/-- C5: the batch dispatcher returns exactly one result per request, in
input order (the i-th result is labelled with the i-th request name), no
matter which requests fail, and the empty batch yields the empty list. -/
theorem batch_results_aligned (r : Registry) (clock : Nat → ℚ × ℚ)
    (requests : List ToolRequest) :
    (execute_batch_tools r clock requests).map BatchItem.tool_name =
      requests.map ToolRequest.tool_name ∧
    (execute_batch_tools r clock requests).length = requests.length ∧
    execute_batch_tools r clock [] = [] := by
  refine ⟨batchLoop_names r clock requests 0, ?_, rfl⟩
  have h := congrArg List.length (batchLoop_names r clock requests 0)
  simpa using h

/-- C5 witness: a two-request batch mixing a failing call and an unknown
name still yields two results in order. -/
theorem batch_results_aligned_witness :
    (execute_batch_tools wsRegistry (fun _ => (0, 0))
        [{ tool_name := "web_search", parameters := [] },
         { tool_name := "no_such_tool", parameters := [] }]).map
        BatchItem.tool_name =
      [{ tool_name := "web_search", parameters := ([] : Params) },
       { tool_name := "no_such_tool", parameters := [] }].map
        ToolRequest.tool_name :=
  (batch_results_aligned wsRegistry (fun _ => (0, 0))
    [{ tool_name := "web_search", parameters := [] },
     { tool_name := "no_such_tool", parameters := [] }]).1

/-- C6: dispatch of a registered tool with all required parameters
present and a non-failing execute yields a success envelope carrying the
returned value, the fixed confirmation message, and a nonnegative
execution time (nonnegativity under the clock reading order t0 ≤ t1). -/
theorem dispatch_success_envelope (r : Registry) (tool_name : String)
    (params : Params) (t0 t1 : ℚ) (tool : Tool) (v : Value)
    (hlook : regLookup r tool_name = some tool)
    (hval : validate_parameters tool.parameters params = Except.ok true)
    (hex : tool.execute params = Except.ok v) (ht : t0 ≤ t1) :
    execute_tool r tool_name params t0 t1 =
      Except.ok { success := true, data := v,
                  message := "Tool executed successfully",
                  execution_time := t1 - t0 } ∧
    (0 : ℚ) ≤ t1 - t0 := by
  constructor
  · simp only [execute_tool, hlook, hex]
  · linarith

/-- C6 witness: web_search with its required query parameter present, at
timestamps 0 and 1. -/
theorem dispatch_success_envelope_witness :
    execute_tool wsRegistry "web_search" [("query", Value.str "hi")] 0 1 =
      Except.ok { success := true,
                  data := Value.obj [
                    ("query", Value.str "hi"),
                    ("search_type", Value.str "web"),
                    ("num_results", Value.int 2),
                    ("results", Value.arr (mockResults (Value.str "hi"))),
                    ("timestamp", Value.str "2024-01-01T00:00:00Z")],
                  message := "Tool executed successfully",
                  execution_time := 1 - 0 } ∧
    (0 : ℚ) ≤ 1 - 0 :=
  dispatch_success_envelope wsRegistry "web_search"
    [("query", Value.str "hi")] 0 1 webSearchTool _ rfl rfl rfl
    (by norm_num)

/-- C7: validation coincides with the spec description (first missing
required key in schema-declared order, nothing else examined), and it
succeeds exactly when every required key is present, regardless of the
type and enum metadata. -/
theorem validate_matches_spec (schema : ToolSchema) (params : Params) :
    validate_parameters schema params = specValidate schema params ∧
    (validate_parameters schema params = Except.ok true ↔
      ∀ (name : String) (spec : ParamSpec),
        (name, spec) ∈ schema → spec.required = true →
        (alookup params name).isSome) := by
  constructor
  · unfold validate_parameters specValidate specFirstMissing
    exact checkRequired_eq_find params (requiredParams schema)
  · unfold validate_parameters
    rw [checkRequired_ok_iff]
    constructor
    · intro h name spec hmem hreq
      exact h name ((mem_requiredParams schema name).mpr ⟨spec, hmem, hreq⟩)
    · intro h p hp
      obtain ⟨spec, hmem, hreq⟩ := (mem_requiredParams schema p).mp hp
      exact h p spec hmem hreq

/-- C7 witness: the web_search schema on an empty mapping and on a
mapping containing the required query key. -/
theorem validate_matches_spec_witness :
    validate_parameters webSearchTool.parameters [] =
      specValidate webSearchTool.parameters [] ∧
    (validate_parameters webSearchTool.parameters [("query", Value.str "x")] =
        Except.ok true ↔
      ∀ (name : String) (spec : ParamSpec),
        (name, spec) ∈ webSearchTool.parameters → spec.required = true →
        (alookup [("query", Value.str "x")] name).isSome) :=
  ⟨(validate_matches_spec webSearchTool.parameters []).1,
   (validate_matches_spec webSearchTool.parameters
      [("query", Value.str "x")]).2⟩

/-- C8 counterexample: the claim states that registering a tool under an
already taken name fails with DuplicateNameError and does not silently
overwrite.  The registry of the source is a plain dict and its insertion
never fails: inserting a second tool under the taken web_search name
replaces the original binding, observable through the changed
description. -/
theorem register_duplicate_overwrites :
    dictInsert wsRegistry "web_search" replacementTool =
      [("web_search", replacementTool)] ∧
    (regLookup (dictInsert wsRegistry "web_search" replacementTool)
        "web_search").map Tool.description = some "replacement" ∧
    (regLookup wsRegistry "web_search").map Tool.description ≠
      (regLookup (dictInsert wsRegistry "web_search" replacementTool)
        "web_search").map Tool.description :=
  ⟨rfl, rfl, by decide⟩

/-- C8 amended: dict insertion under a taken name silently replaces that
binding (no failure path exists), the inserted tool is looked up under
its name afterwards, and every other name resolves as before, so two
tools registered under distinct names are independently lookup-able. -/
theorem register_overwrite_semantics (r : Registry) (key : String)
    (tool : Tool) :
    regLookup (dictInsert r key tool) key = some tool ∧
    (∀ k2 : String, k2 ≠ key →
      regLookup (dictInsert r key tool) k2 = regLookup r k2) := by
  induction r with
  | nil =>
      refine ⟨by simp [dictInsert, regLookup, alookup], ?_⟩
      intro k2 hne
      have hne2 : ¬ key = k2 := fun h => hne h.symm
      simp [dictInsert, regLookup, alookup, hne2]
  | cons kv rest ih =>
      obtain ⟨k, v⟩ := kv
      by_cases hk : k = key
      · subst hk
        refine ⟨by simp [dictInsert, regLookup, alookup], ?_⟩
        intro k2 hne
        have hne2 : ¬ k = k2 := fun h => hne h.symm
        simp [dictInsert, regLookup, alookup, hne2]
      · refine ⟨?_, ?_⟩
        · have h1 := ih.1
          simp only [regLookup] at h1
          simp [dictInsert, regLookup, alookup, hk, h1]
        · intro k2 hne
          have h2 := ih.2 k2 hne
          simp only [regLookup] at h2
          by_cases hk2 : k = k2
          · subst hk2
            simp [dictInsert, regLookup, alookup, hk]
          · simp [dictInsert, regLookup, alookup, hk, hk2, h2]

/-- C8 amended witness: registering two tools under the distinct names
alpha and web_search leaves both independently lookup-able. -/
theorem register_overwrite_semantics_witness :
    regLookup (dictInsert (dictInsert [] "alpha" replacementTool)
        "web_search" webSearchTool) "web_search" = some webSearchTool ∧
    regLookup (dictInsert (dictInsert [] "alpha" replacementTool)
        "web_search" webSearchTool) "alpha" = some replacementTool :=
  ⟨(register_overwrite_semantics (dictInsert [] "alpha" replacementTool)
      "web_search" webSearchTool).1,
   ((register_overwrite_semantics (dictInsert [] "alpha" replacementTool)
      "web_search" webSearchTool).2 "alpha" (by decide)).trans
     (register_overwrite_semantics [] "alpha" replacementTool).1⟩

/-- C9: two dispatches with identical tool name and parameters produce
envelopes with equal success, data and message, whatever the two clock
readings are (every embedded execute is a function of its parameters,
which is what the claim means by a pure, stateless tool). -/
theorem dispatch_deterministic (r : Registry) (tool_name : String)
    (params : Params) (t0 t1 s0 s1 : ℚ) :
    (execute_tool r tool_name params t0 t1).map
        (fun resp => (resp.success, resp.data, resp.message)) =
      (execute_tool r tool_name params s0 s1).map
        (fun resp => (resp.success, resp.data, resp.message)) := by
  cases h : regLookup r tool_name with
  | none => simp only [execute_tool, h]
  | some tool =>
      cases h2 : tool.execute params with
      | ok v => simp only [execute_tool, h, h2, Except.map]
      | error e => simp only [execute_tool, h, h2, Except.map]

/-- C9 witness: the same web_search call at two different clock
readings. -/
theorem dispatch_deterministic_witness :
    (execute_tool wsRegistry "web_search" [("query", Value.str "hi")] 0 5).map
        (fun resp => (resp.success, resp.data, resp.message)) =
      (execute_tool wsRegistry "web_search" [("query", Value.str "hi")] 2 9).map
        (fun resp => (resp.success, resp.data, resp.message)) :=
  dispatch_deterministic wsRegistry "web_search"
    [("query", Value.str "hi")] 0 5 2 9

/-- C10: the statement-level translations with threaded state return the
registry, the schema and the caller parameters unchanged next to the
result of the plain translation: dispatch, validation and the web_search
execute only read these objects. -/
theorem dispatch_frame (r : Registry) (tool_name : String) (params : Params)
    (t0 t1 : ℚ) (schema : ToolSchema) :
    execute_tool_st r tool_name params t0 t1 =
      (r, params, execute_tool r tool_name params t0 t1) ∧
    validate_parameters_st schema params =
      (schema, params, validate_parameters schema params) ∧
    webSearchExecute_st params = (params, webSearchExecute params) := by
  refine ⟨?_, ?_, ?_⟩
  · cases h : regLookup r tool_name with
    | none => simp only [execute_tool_st, execute_tool, h]
    | some tool =>
        cases h2 : tool.execute params with
        | ok v => simp only [execute_tool_st, execute_tool, h, h2]
        | error e => simp only [execute_tool_st, execute_tool, h, h2]
  · simp only [validate_parameters_st, validate_parameters, checkRequired_st_eq]
  · cases h : pySliceTo (mockResults (pyGet params "query"))
        (pyGetD params "num_results" (Value.int 10)) with
    | ok results => simp only [webSearchExecute_st, webSearchExecute, h]
    | error e => simp only [webSearchExecute_st, webSearchExecute, h]

/-- C10 witness: a concrete dispatch, validation and execute leave the
concrete registry, schema and parameters unchanged. -/
theorem dispatch_frame_witness :
    execute_tool_st wsRegistry "web_search" [("query", Value.str "hi")] 0 1 =
      (wsRegistry, [("query", Value.str "hi")],
       execute_tool wsRegistry "web_search" [("query", Value.str "hi")] 0 1) ∧
    validate_parameters_st webSearchTool.parameters
        [("query", Value.str "hi")] =
      (webSearchTool.parameters, [("query", Value.str "hi")],
       validate_parameters webSearchTool.parameters
         [("query", Value.str "hi")]) ∧
    webSearchExecute_st [("query", Value.str "hi")] =
      ([("query", Value.str "hi")],
       webSearchExecute [("query", Value.str "hi")]) :=
  dispatch_frame wsRegistry "web_search" [("query", Value.str "hi")] 0 1
    webSearchTool.parameters

end ToolService
